import Mathlib

/-!
Verification of the chat request handler in src/lambda/chat_handler.py.

The handler is shallowly embedded: JSON values are an inductive type, the
external services (JSON parser, uuid source, clock, secret store, generation
API, storage) are fields of an `Env`, and the mutable process state (the
stored records, the cached client, cursors into the uuid and clock streams)
is threaded explicitly. Python exceptions become `Except String`; side
effects performed before an exception is raised persist in the returned
state, as they do in the source.
-/

/-- A JSON value, as produced by parsing a request body (json.loads). -/
inductive JValue where
  | jnull
  | jbool (b : Bool)
  | jnum (n : Int)
  | jstr (s : String)
  | jarr (xs : List JValue)
  | jobj (fields : List (String × JValue))

/-- Python truthiness of a JSON value, as used by the source in
the test `if not user_message` and in `body.get(..) or str(uuid.uuid4())`. -/
def JValue.truthy : JValue → Bool
  | .jnull => false
  | .jbool b => b
  | .jnum n => n != 0
  | .jstr s => !s.isEmpty
  | .jarr xs => !xs.isEmpty
  | .jobj fs => !fs.isEmpty

/-- Python `body.get(key, default)`: a dictionary lookup with a default, which
raises AttributeError when the receiver is not a dictionary (the parsed body
may be any JSON value). -/
def pyGet (v : JValue) (key : String) (dflt : JValue) : Except String JValue :=
  match v with
  | .jobj fields =>
    match fields.lookup key with
    | some w => .ok w
    | none => .ok dflt
  | _ => .error "object has no attribute get"

/-- Whether `needle` is a leading segment of `hay` (character lists). -/
def listPref : List Char → List Char → Bool
  | [], _ => true
  | _ :: _, [] => false
  | a :: as, b :: bs => a == b && listPref as bs

/-- Whether `needle` occurs contiguously anywhere in `hay` (character lists). -/
def listSub (needle : List Char) : List Char → Bool
  | [] => listPref needle []
  | b :: bs => listPref needle (b :: bs) || listSub needle bs

/-- Python `needle in hay` on strings: substring containment. -/
def strContains (hay needle : String) : Bool :=
  listSub needle.data hay.data

/-- Python str.lower(), per character (the same letter mapping as
String.toLower, written over the character list so that it evaluates on
concrete inputs). -/
def strLower (s : String) : String := ⟨s.data.map Char.toLower⟩

/-- A UTC instant as the handler observes it: its epoch seconds (used by the
TTL arithmetic, datetime.timestamp()) and its ISO-8601 rendering
(datetime.isoformat()). -/
structure Time where
  epochSeconds : Nat
  iso : String

/-- The item written by table.put_item in store_message. The expiry attribute
is stored under the source key name ttl. -/
structure Record where
  conversationId : JValue
  timestamp : String
  sender : String
  message : JValue
  messageId : String
  ttl : Nat

/-- The arguments generate_response passes to client.messages.create. -/
structure AnthropicRequest where
  model : String
  maxTokens : Nat
  systemPrompt : String
  messages : List (String × JValue)

/-- The external services the handler calls, each as an opaque-to-the-program
function supplied by the environment:
json.loads, the stream of str(uuid.uuid4()) results, the stream of
datetime.utcnow() results, the ANTHROPIC_API_KEY_PARAM environment variable,
ssm.get_parameter (with decryption), client.messages.create (returning the
texts of the content items), and table.put_item (accept or raise). -/
structure Env where
  parseJson : String → Except String JValue
  uuids : Nat → String
  clock : Nat → Time
  apiKeyParamVar : Option String
  getParameter : String → Except String String
  createMessage : String → AnthropicRequest → Except String (List String)
  putItem : Record → Except String Unit

/-- Mutable process state: the table contents, the cached Anthropic client
(represented by its api key, the module-global _anthropic_client), and cursors
into the uuid and clock streams. -/
structure SysState where
  store : List Record
  anthropicClient : Option String
  uuidCounter : Nat
  clockCounter : Nat

/-- The body of an HTTP response: the raw empty string for preflight, a JSON
object (json.dumps of a dictionary) otherwise. -/
inductive RespBody where
  | raw (s : String)
  | json (v : JValue)

/-- An HTTP-style response as returned by the handler. -/
structure HttpResponse where
  statusCode : Nat
  headers : List (String × String)
  body : RespBody

/-- Looks up a field of a JSON-object response body (for stating theorems
about individual response fields). -/
def RespBody.field : RespBody → String → Option JValue
  | .raw _, _ => none
  | .json (.jobj fields), k => fields.lookup k
  | .json _, _ => none

/-- get_cors_headers from the source. -/
def get_cors_headers : List (String × String) :=
  [("Access-Control-Allow-Origin", "*"),
   ("Access-Control-Allow-Headers",
    "Content-Type,X-Amz-Date,Authorization,X-Api-Key,X-Amz-Security-Token"),
   ("Access-Control-Allow-Methods", "OPTIONS,POST"),
   ("Content-Type", "application/json")]

/-- error_response from the source. -/
def error_response (message : String) (status_code : Nat) : HttpResponse :=
  { statusCode := status_code
    headers := get_cors_headers
    body := .json (.jobj [("error", .jstr message)]) }

/-- os.environ.get of ANTHROPIC_API_KEY_PARAM with its default. -/
def anthropic_param_name (env : Env) : String :=
  env.apiKeyParamVar.getD "/prod/anthropic-api-key"

/-- get_anthropic_client from the source: return the cached client if present,
otherwise fetch the api key from the parameter store (raising on failure,
leaving the cache empty) and cache the resulting client. -/
def get_anthropic_client (env : Env) (st : SysState) :
    Except String String × SysState :=
  match st.anthropicClient with
  | some client => (.ok client, st)
  | none =>
    match env.getParameter (anthropic_param_name env) with
    | .ok api_key => (.ok api_key, { st with anthropicClient := some api_key })
    | .error e => (.error e, st)

/-- The fixed request generate_response builds for client.messages.create. -/
def anthropic_request (user_message : JValue) : AnthropicRequest :=
  { model := "claude-sonnet-4-20250514"
    maxTokens := 1024
    systemPrompt := "You are a helpful assistant specialized in grant writing and applications. Help users with proposal structure, budgets, timelines, and all aspects of grant development."
    messages := [("user", user_message)] }

/-- generate_fallback_response from the source: deterministic first-match-wins
substring rules over the lowercased message. -/
def generate_fallback_response (user_message : String) : String :=
  let message_lower := strLower user_message
  if strContains message_lower "grant" && strContains message_lower "write" then
    "I can help you write grants! A strong grant proposal typically includes: 1) Executive Summary, 2) Statement of Need, 3) Project Description, 4) Budget, and 5) Organization Information. What specific aspect would you like help with?"
  else if strContains message_lower "budget" then
    "For grant budgets, make sure to include: personnel costs, equipment, supplies, travel, and indirect costs. Be realistic and justify each expense clearly. Would you like me to help you create a budget template?"
  else if strContains message_lower "deadline" || strContains message_lower "timeline" then
    "Managing grant deadlines is crucial! I recommend creating a timeline that works backwards from the submission date, allowing time for reviews, revisions, and gathering required documents. Would you like help planning your timeline?"
  else if strContains message_lower "hello" || strContains message_lower "hi" then
    "Hello! I\x27m here to help you with grant writing and applications. Feel free to ask me about proposal structure, budgets, timelines, or any other grant-related questions."
  else
    "Thank you for your question. I\x27m here to help with grant writing, applications, budgets, timelines, and proposal development. Could you provide more details about what you need help with?"

/-- generate_response from the source: try the remote call (client fetch, API
call, first-content-item extraction, raising on empty content); on any
exception in that block, fall back to generate_fallback_response applied to
the user message (which itself raises when the message is not a string, since
it calls .lower()). -/
def generate_response (env : Env) (st : SysState) (user_message : JValue) :
    Except String String × SysState :=
  let attempt : Except String String × SysState :=
    match get_anthropic_client env st with
    | (.error e, st') => (.error e, st')
    | (.ok client, st') =>
      match env.createMessage client (anthropic_request user_message) with
      | .error e => (.error e, st')
      | .ok [] => (.error "Empty response from Anthropic API", st')
      | .ok (tfirst :: _) => (.ok tfirst, st')
  match attempt with
  | (.ok text, st') => (.ok text, st')
  | (.error _, st') =>
    match user_message with
    | .jstr s => (.ok (generate_fallback_response s), st')
    | _ => (.error "object has no attribute lower", st')

/-- store_message from the source: read the clock for the TTL (30 days ahead,
in epoch seconds), draw a fresh uuid for messageId, and put the item; a
storage failure is re-raised after logging, leaving the table unchanged. -/
def store_message (env : Env) (st : SysState) (conversation_id : JValue)
    (sender : String) (message_ : JValue) (timestamp : String) :
    Except String Unit × SysState :=
  let t := env.clock st.clockCounter
  let ttl := t.epochSeconds + 30 * 86400
  let mid := env.uuids st.uuidCounter
  let st' : SysState :=
    { st with clockCounter := st.clockCounter + 1, uuidCounter := st.uuidCounter + 1 }
  let item : Record :=
    { conversationId := conversation_id, timestamp := timestamp, sender := sender,
      message := message_, messageId := mid, ttl := ttl }
  match env.putItem item with
  | .ok _ => (.ok (), { st' with store := st'.store ++ [item] })
  | .error e => (.error e, st')

/-- The ISO-8601 timestamp string the handler builds at clock position k:
datetime.utcnow().isoformat() + the literal Z. -/
def tsString (env : Env) (k : Nat) : String := (env.clock k).iso ++ "Z"

/-- The source line `conversation_id = body.get(..) or str(uuid.uuid4())`:
keep a truthy supplied value verbatim; for a falsy one (absent, hence None, or
an empty string) draw a fresh uuid, advancing the uuid stream. -/
def resolve_conversation_id (env : Env) (st : SysState) (cidRaw : JValue) :
    JValue × SysState :=
  if cidRaw.truthy then (cidRaw, st)
  else (.jstr (env.uuids st.uuidCounter),
        { st with uuidCounter := st.uuidCounter + 1 })

/-- An HTTP-style request event: the method and the raw body string (none when
the body key is absent, so that event.get with default applies). -/
structure Event where
  httpMethod : Option String
  body : Option String

/-- The try-block of lambda_handler: parse the body (a missing body defaults
to the two-character string of an empty JSON object), extract message and
conversationId (generating a fresh uuid when the supplied value is falsy),
validate, store the user turn, generate the reply, store the assistant turn,
and build the 200 response. Any raised exception is returned as an error
together with the state reached so far. -/
def handle_request (env : Env) (st : SysState) (event : Event) :
    Except String HttpResponse × SysState :=
  match env.parseJson (event.body.getD "\x7b\x7d") with
  | .error e => (.error e, st)
  | .ok body =>
    match pyGet body "message" (.jstr "") with
    | .error e => (.error e, st)
    | .ok user_message =>
      match pyGet body "conversationId" .jnull with
      | .error e => (.error e, st)
      | .ok cidRaw =>
        let resolved := resolve_conversation_id env st cidRaw
        let conversation_id := resolved.fst
        let st1 := resolved.snd
        if !user_message.truthy then
          (.ok (error_response "Message is required" 400), st1)
        else
          let timestamp := tsString env st1.clockCounter
          let st2 := { st1 with clockCounter := st1.clockCounter + 1 }
          match store_message env st2 conversation_id "user" user_message timestamp with
          | (.error e, st3) => (.error e, st3)
          | (.ok _, st3) =>
            match generate_response env st3 user_message with
            | (.error e, st4) => (.error e, st4)
            | (.ok ai_response, st4) =>
              let response_timestamp := tsString env st4.clockCounter
              let st5 := { st4 with clockCounter := st4.clockCounter + 1 }
              match store_message env st5 conversation_id "assistant"
                  (.jstr ai_response) response_timestamp with
              | (.error e, st6) => (.error e, st6)
              | (.ok _, st6) =>
                (.ok { statusCode := 200
                       headers := get_cors_headers
                       body := .json (.jobj
                         [("message", .jstr ai_response),
                          ("conversationId", conversation_id),
                          ("timestamp", .jstr response_timestamp)]) }, st6)

/-- lambda_handler from the source: answer OPTIONS preflight immediately;
otherwise run the request body under the top-level try, converting any raised
exception into a 500 response embedding the exception detail. -/
def lambda_handler (env : Env) (st : SysState) (event : Event) :
    HttpResponse × SysState :=
  if event.httpMethod = some "OPTIONS" then
    ({ statusCode := 200, headers := get_cors_headers, body := .raw "" }, st)
  else
    match handle_request env st event with
    | (.ok resp, st') => (resp, st')
    | (.error e, st') => (error_response ("Internal server error: " ++ e) 500, st')

/-!
Concrete environments and states used to instantiate the theorems below on
closed inputs.
-/

/-- The initial process state: empty table, no cached client, streams at 0. -/
def initState : SysState :=
  { store := [], anthropicClient := none, uuidCounter := 0, clockCounter := 0 }

/-- A concrete environment: the parser knows the empty-object default, a body
"M" carrying only a message, and a body "MC" carrying a message and a
conversationId, and rejects everything else; the clock is constant; the
generation API always fails with a network error; storage always accepts. -/
def sampleEnv : Env :=
  { parseJson := fun s =>
      if s = "\x7b\x7d" then .ok (.jobj [])
      else if s = "M" then .ok (.jobj [("message", .jstr "hello")])
      else if s = "MC" then
        .ok (.jobj [("message", .jstr "hello"), ("conversationId", .jstr "c-1")])
      else .error "Expecting value"
    uuids := fun n => "uuid-" ++ toString n
    clock := fun _ => { epochSeconds := 1700000000, iso := "2025-01-01T00:00:00" }
    apiKeyParamVar := none
    getParameter := fun _ => .ok "key"
    createMessage := fun _ _ => .error "network error"
    putItem := fun _ => .ok () }

/-!
Helper lemmas shared by the claim theorems.
-/

/-- On a JSON object, pyGet is an ordinary lookup with default. -/
theorem pyGet_obj (fields : List (String × JValue)) (k : String) (d : JValue) :
    pyGet (.jobj fields) k d = .ok ((fields.lookup k).getD d) := by
  unfold pyGet
  cases h : List.lookup k fields <;> simp [h]

/-- A successful put stores exactly one fully determined record and advances
the uuid and clock cursors. -/
theorem store_message_ok (env : Env) (hput : ∀ r, env.putItem r = .ok ())
    (st : SysState) (cid : JValue) (sender : String) (msg : JValue)
    (ts : String) :
    store_message env st cid sender msg ts =
      (.ok (),
       { store := st.store ++
           [{ conversationId := cid, timestamp := ts, sender := sender,
              message := msg, messageId := env.uuids st.uuidCounter,
              ttl := (env.clock st.clockCounter).epochSeconds + 30 * 86400 }],
         anthropicClient := st.anthropicClient,
         uuidCounter := st.uuidCounter + 1,
         clockCounter := st.clockCounter + 1 }) := by
  unfold store_message
  simp [hput]

/-- Fetching (or reusing) the client never touches the table or the uuid and
clock cursors. -/
theorem get_anthropic_client_state (env : Env) (st : SysState) :
    (get_anthropic_client env st).snd.store = st.store ∧
    (get_anthropic_client env st).snd.uuidCounter = st.uuidCounter ∧
    (get_anthropic_client env st).snd.clockCounter = st.clockCounter := by
  unfold get_anthropic_client
  cases h : st.anthropicClient <;> simp
  cases hg : env.getParameter (anthropic_param_name env) <;> simp

/-- Generating a reply never touches the table or the uuid and clock
cursors. -/
theorem generate_response_state (env : Env) (st : SysState) (v : JValue) :
    (generate_response env st v).snd.store = st.store ∧
    (generate_response env st v).snd.uuidCounter = st.uuidCounter ∧
    (generate_response env st v).snd.clockCounter = st.clockCounter := by
  have hcl := get_anthropic_client_state env st
  unfold generate_response
  rcases hc : get_anthropic_client env st with ⟨r, st1⟩
  rw [hc] at hcl
  simp only [Prod.snd] at hcl
  rcases r with e | client
  · cases v <;> simp <;> exact hcl
  · cases hm : env.createMessage client (anthropic_request v) with
    | error e => cases v <;> simp [hm] <;> exact hcl
    | ok contents =>
      cases contents with
      | nil => cases v <;> simp [hm] <;> exact hcl
      | cons tfirst rest => simp [hm]; exact hcl

/-- On a string message the reply generation always succeeds: either the
remote call produced text, or the fallback responder did. -/
theorem generate_response_str_isOk (env : Env) (st : SysState) (m : String) :
    ∃ t, (generate_response env st (.jstr m)).fst = .ok t := by
  unfold generate_response
  rcases hc : get_anthropic_client env st with ⟨r, st1⟩
  rcases r with e | client
  · exact ⟨generate_fallback_response m, by simp⟩
  · cases hm : env.createMessage client (anthropic_request (.jstr m)) with
    | error e => exact ⟨generate_fallback_response m, by simp [hm]⟩
    | ok contents =>
      cases contents with
      | nil => exact ⟨generate_fallback_response m, by simp [hm]⟩
      | cons tfirst rest => exact ⟨tfirst, by simp [hm]⟩

/-- When the credential fetch fails, or the remote call fails or returns empty
content for every possible key, the generated reply is exactly the fallback
responder answer. -/
theorem generate_response_fallback (env : Env) (st : SysState) (m : String)
    (h : (st.anthropicClient = none ∧
            ∃ e, env.getParameter (anthropic_param_name env) = .error e) ∨
         (∀ key, ∃ e,
            env.createMessage key (anthropic_request (.jstr m)) = .error e) ∨
         (∀ key, env.createMessage key (anthropic_request (.jstr m)) = .ok [])) :
    (generate_response env st (.jstr m)).fst =
      .ok (generate_fallback_response m) := by
  unfold generate_response get_anthropic_client
  cases hc : st.anthropicClient with
  | some client =>
    rcases h with ⟨hnone, _⟩ | hfail | hempty
    · rw [hc] at hnone; exact absurd hnone (by simp)
    · obtain ⟨e, he⟩ := hfail client
      simp [he]
    · simp [hempty client]
  | none =>
    cases hg : env.getParameter (anthropic_param_name env) with
    | error e => simp
    | ok api_key =>
      rcases h with ⟨_, e, he⟩ | hfail | hempty
      · rw [hg] at he; exact absurd he (by simp)
      · obtain ⟨e, he⟩ := hfail api_key
        simp [he]
      · simp [hempty api_key]

/-- The conversationId the handler resolves for a parsed body (supplied value
when truthy, next fresh uuid otherwise). -/
def resolvedCid (env : Env) (st : SysState)
    (fields : List (String × JValue)) : JValue :=
  (resolve_conversation_id env st ((fields.lookup "conversationId").getD .jnull)).fst

/-- The uuid cursor position after conversationId resolution. -/
def uuidAfterCid (env : Env) (st : SysState)
    (fields : List (String × JValue)) : Nat :=
  (resolve_conversation_id env st
    ((fields.lookup "conversationId").getD .jnull)).snd.uuidCounter

/-- The user-turn record a successful request writes first. -/
def userRecord (env : Env) (st : SysState)
    (fields : List (String × JValue)) (m : String) : Record :=
  { conversationId := resolvedCid env st fields,
    timestamp := tsString env st.clockCounter,
    sender := "user",
    message := .jstr m,
    messageId := env.uuids (uuidAfterCid env st fields),
    ttl := (env.clock (st.clockCounter + 1)).epochSeconds + 30 * 86400 }

/-- The assistant-turn record a successful request writes second, given the
generated reply text. -/
def asstRecord (env : Env) (st : SysState)
    (fields : List (String × JValue)) (ai : String) : Record :=
  { conversationId := resolvedCid env st fields,
    timestamp := tsString env (st.clockCounter + 2),
    sender := "assistant",
    message := .jstr ai,
    messageId := env.uuids (uuidAfterCid env st fields + 1),
    ttl := (env.clock (st.clockCounter + 3)).epochSeconds + 30 * 86400 }

/-- Resolving the conversationId touches nothing but the uuid cursor. -/
theorem resolve_conversation_id_snd (env : Env) (st : SysState) (cidRaw : JValue) :
    (resolve_conversation_id env st cidRaw).snd.store = st.store ∧
    (resolve_conversation_id env st cidRaw).snd.anthropicClient = st.anthropicClient ∧
    (resolve_conversation_id env st cidRaw).snd.clockCounter = st.clockCounter := by
  unfold resolve_conversation_id
  by_cases h : cidRaw.truthy <;> simp [h]

/-- On a string message the reply generation returns some text and changes at
most the cached client. -/
theorem generate_response_str_form (env : Env) (st : SysState) (m : String) :
    ∃ t ac, generate_response env st (.jstr m) =
      (.ok t, { st with anthropicClient := ac }) := by
  unfold generate_response get_anthropic_client
  cases hc : st.anthropicClient with
  | some client =>
    cases hm : env.createMessage client (anthropic_request (.jstr m)) with
    | error e =>
      refine ⟨generate_fallback_response m, some client, ?_⟩
      simp [hm, ← hc]
    | ok contents =>
      cases contents with
      | nil =>
        refine ⟨generate_fallback_response m, some client, ?_⟩
        simp [hm, ← hc]
      | cons tfirst rest =>
        refine ⟨tfirst, some client, ?_⟩
        simp [hm, ← hc]
  | none =>
    cases hg : env.getParameter (anthropic_param_name env) with
    | error e =>
      refine ⟨generate_fallback_response m, none, ?_⟩
      simp [← hc]
    | ok api_key =>
      cases hm : env.createMessage api_key (anthropic_request (.jstr m)) with
      | error e =>
        refine ⟨generate_fallback_response m, some api_key, ?_⟩
        simp [hm]
      | ok contents =>
        cases contents with
        | nil =>
          refine ⟨generate_fallback_response m, some api_key, ?_⟩
          simp [hm]
        | cons tfirst rest =>
          refine ⟨tfirst, some api_key, ?_⟩
          simp [hm]

/-- The full success path of the request body: for a parsed object body with a
non-empty string message and accepting storage, the handler stores the user
turn, generates a reply (from some intermediate state), stores the assistant
turn, and answers 200 with the reply, the resolved conversationId, and the
assistant timestamp; the final state is explicit up to the reply text and the
cached client. -/
theorem handle_request_success (env : Env) (st : SysState) (event : Event)
    (b : String) (fields : List (String × JValue)) (m : String)
    (hb : event.body = some b)
    (hp : env.parseJson b = .ok (.jobj fields))
    (hmsg : fields.lookup "message" = some (.jstr m))
    (hm : m ≠ "")
    (hput : ∀ r, env.putItem r = .ok ()) :
    ∃ ai ac,
      (∃ stg, stg.anthropicClient = st.anthropicClient ∧
        (generate_response env stg (.jstr m)).fst = .ok ai) ∧
      handle_request env st event =
        (.ok { statusCode := 200,
               headers := get_cors_headers,
               body := .json (.jobj
                 [("message", .jstr ai),
                  ("conversationId", resolvedCid env st fields),
                  ("timestamp", .jstr (tsString env (st.clockCounter + 2)))]) },
         { store := st.store ++
             [userRecord env st fields m, asstRecord env st fields ai],
           anthropicClient := ac,
           uuidCounter := uuidAfterCid env st fields + 2,
           clockCounter := st.clockCounter + 4 }) := by
  have hne : m.isEmpty = false := by
    cases he : m.isEmpty
    · rfl
    · exact absurd ((String.isEmpty_iff m).mp he) hm
  obtain ⟨ai, ac, hg⟩ := generate_response_str_form env
    { store := st.store ++ [userRecord env st fields m],
      anthropicClient := st.anthropicClient,
      uuidCounter := uuidAfterCid env st fields + 1,
      clockCounter := st.clockCounter + 2 } m
  refine ⟨ai, ac,
    ⟨{ store := st.store ++ [userRecord env st fields m],
       anthropicClient := st.anthropicClient,
       uuidCounter := uuidAfterCid env st fields + 1,
       clockCounter := st.clockCounter + 2 }, rfl, by rw [hg]⟩, ?_⟩
  unfold handle_request
  rw [hb]
  simp only [Option.getD_some]
  rw [hp]
  simp only [pyGet_obj, hmsg, Option.getD_some]
  rw [if_neg (by simp [JValue.truthy, hne])]
  obtain ⟨hs1, hs2, hs3⟩ := resolve_conversation_id_snd env st
    ((List.lookup "conversationId" fields).getD JValue.jnull)
  rw [hs1, hs2, hs3]
  simp only [store_message_ok env hput]
  simp only [userRecord, asstRecord, resolvedCid, uuidAfterCid, tsString] at hg ⊢
  simp at hg
  rw [show st.clockCounter + 2 = st.clockCounter + 1 + 1 from rfl] at hg
  rw [hg]
  simp [List.append_assoc]

/-- Away from preflight the handler runs the request body with the top-level
catch converting a raised exception into a 500 response. -/
theorem lambda_handler_non_preflight (env : Env) (st : SysState) (event : Event)
    (hopt : event.httpMethod ≠ some "OPTIONS") :
    lambda_handler env st event =
      (match handle_request env st event with
       | (.ok resp, st') => (resp, st')
       | (.error e, st') =>
         (error_response ("Internal server error: " ++ e) 500, st')) := by
  unfold lambda_handler
  rw [if_neg hopt]

/-- Environment whose parser rejects every body (unparsable body). -/
def badBodyEnv : Env :=
  { sampleEnv with parseJson := fun _ => .error "Expecting value" }

/-- Environment whose parser yields a JSON array, a non-object value. -/
def arrayBodyEnv : Env :=
  { sampleEnv with parseJson := fun _ => .ok (.jarr [.jnum 1]) }

/-- Environment whose storage rejects every put. -/
def downStoreEnv : Env :=
  { sampleEnv with putItem := fun _ => .error "table unavailable" }

/-- Environment whose storage rejects exactly the assistant-turn puts. -/
def asstFailEnv : Env :=
  { sampleEnv with
      putItem := fun r =>
        if r.sender = "assistant" then .error "boom" else .ok () }

/-- C8: an OPTIONS request is answered immediately with status 200, the CORS
headers and an empty raw body, leaving the state (storage, client cache,
uuid and clock streams) untouched; nothing else in the event influences the
response. -/
theorem options_preflight (env : Env) (st : SysState) (event : Event)
    (hopt : event.httpMethod = some "OPTIONS") :
    lambda_handler env st event =
      ({ statusCode := 200, headers := get_cors_headers, body := .raw "" }, st) := by
  unfold lambda_handler
  rw [if_pos hopt]

/-- C8 witness: the preflight answer on a concrete event that carries a body
the handler must ignore. -/
theorem options_preflight_witness :
    lambda_handler sampleEnv initState
        { httpMethod := some "OPTIONS", body := some "M" } =
      ({ statusCode := 200, headers := get_cors_headers, body := .raw "" },
       initState) :=
  options_preflight sampleEnv initState
    { httpMethod := some "OPTIONS", body := some "M" } rfl

/-- C1: a non-preflight request whose parsed body lacks the message field or
carries the empty string is answered 400 with body exactly the pair
error - Message is required, and neither the table, nor the client cache,
nor the clock stream is touched (no storage write, no generation call). -/
theorem validation_error_400 (env : Env) (st : SysState) (event : Event)
    (b : String) (fields : List (String × JValue))
    (hopt : event.httpMethod ≠ some "OPTIONS")
    (hb : event.body = some b)
    (hp : env.parseJson b = .ok (.jobj fields))
    (hmsg : fields.lookup "message" = none ∨
            fields.lookup "message" = some (.jstr "")) :
    (lambda_handler env st event).fst = error_response "Message is required" 400 ∧
    (lambda_handler env st event).snd.store = st.store ∧
    (lambda_handler env st event).snd.anthropicClient = st.anthropicClient ∧
    (lambda_handler env st event).snd.clockCounter = st.clockCounter := by
  rw [lambda_handler_non_preflight env st event hopt]
  unfold handle_request
  rw [hb]
  simp only [Option.getD_some]
  rw [hp]
  simp only [pyGet_obj, Option.getD_some]
  obtain ⟨hs1, hs2, hs3⟩ := resolve_conversation_id_snd env st
    ((List.lookup "conversationId" fields).getD JValue.jnull)
  rcases hmsg with h | h <;> rw [h] <;>
    simp [JValue.truthy, show ("" : String).isEmpty = true from rfl, hs1, hs2, hs3]

/-- C1 witness: a request whose body parses to the empty object. -/
theorem validation_error_400_witness :
    (lambda_handler sampleEnv initState
        { httpMethod := some "POST", body := some "\x7b\x7d" }).fst =
      error_response "Message is required" 400 :=
  (validation_error_400 sampleEnv initState
    { httpMethod := some "POST", body := some "\x7b\x7d" } "\x7b\x7d" []
    (by decide) rfl rfl (Or.inl rfl)).1

/-- C4: on any input whose lowercase form contains grant, write and budget,
the fallback responder answers with the rule-1 proposal-structure guidance
and not with the rule-2 budget guidance: the grant-and-write rule is checked
first and the first match wins. -/
theorem fallback_rule1_precedence (s : String)
    (hg : strContains (strLower s) "grant" = true)
    (hw : strContains (strLower s) "write" = true)
    (_hb : strContains (strLower s) "budget" = true) :
    generate_fallback_response s =
      "I can help you write grants! A strong grant proposal typically includes: 1) Executive Summary, 2) Statement of Need, 3) Project Description, 4) Budget, and 5) Organization Information. What specific aspect would you like help with?" ∧
    generate_fallback_response s ≠
      "For grant budgets, make sure to include: personnel costs, equipment, supplies, travel, and indirect costs. Be realistic and justify each expense clearly. Would you like me to help you create a budget template?" := by
  have h1 : generate_fallback_response s =
      "I can help you write grants! A strong grant proposal typically includes: 1) Executive Summary, 2) Statement of Need, 3) Project Description, 4) Budget, and 5) Organization Information. What specific aspect would you like help with?" := by
    unfold generate_fallback_response
    simp [hg, hw]
  refine ⟨h1, ?_⟩
  rw [h1]
  decide

/-- C4 witness: the precedence test input from the specification. -/
theorem fallback_rule1_precedence_witness :
    generate_fallback_response "help me write a grant budget" =
      "I can help you write grants! A strong grant proposal typically includes: 1) Executive Summary, 2) Statement of Need, 3) Project Description, 4) Budget, and 5) Organization Information. What specific aspect would you like help with?" :=
  (fallback_rule1_precedence "help me write a grant budget"
    (by decide) (by decide) (by decide)).1

/-- C7: every record the persistence writer stores has exactly the six
components conversationId, timestamp, sender, message, messageId and the
expiry attribute (stored under the source key ttl), the expiry being the
creation instant plus 30 days (2592000 seconds) and the messageId being the
next fresh uuid, independent of the timestamp argument. -/
theorem store_message_record_shape (env : Env) (st : SysState) (cid : JValue)
    (sender : String) (msg : JValue) (ts : String)
    (hput : ∀ r, env.putItem r = .ok ()) :
    store_message env st cid sender msg ts =
      (.ok (),
       { store := st.store ++
           [{ conversationId := cid, timestamp := ts, sender := sender,
              message := msg, messageId := env.uuids st.uuidCounter,
              ttl := (env.clock st.clockCounter).epochSeconds + 30 * 86400 }],
         anthropicClient := st.anthropicClient,
         uuidCounter := st.uuidCounter + 1,
         clockCounter := st.clockCounter + 1 }) :=
  store_message_ok env hput st cid sender msg ts

/-- C7 witness: a concrete store in the sample environment. -/
theorem store_message_record_shape_witness :
    store_message sampleEnv initState (.jstr "c-1") "user" (.jstr "hello")
        "2025-01-01T00:00:00Z" =
      (.ok (),
       { store :=
           [{ conversationId := .jstr "c-1", timestamp := "2025-01-01T00:00:00Z",
              sender := "user", message := .jstr "hello",
              messageId := "uuid-0", ttl := 1700000000 + 30 * 86400 }],
         anthropicClient := none,
         uuidCounter := 1,
         clockCounter := 1 }) :=
  store_message_record_shape sampleEnv initState (.jstr "c-1") "user"
    (.jstr "hello") "2025-01-01T00:00:00Z" (fun _ => rfl)

/-- C10: when the body parses to a JSON value that is not an object, the
field access raises, the top-level catch answers 500 with the exception
detail, and the caller does not receive the 400 validation error. -/
theorem non_object_body_500 (env : Env) (st : SysState) (event : Event)
    (b : String) (v : JValue)
    (hopt : event.httpMethod ≠ some "OPTIONS")
    (hb : event.body = some b)
    (hp : env.parseJson b = .ok v)
    (hv : ∀ fields, v ≠ .jobj fields) :
    (lambda_handler env st event).fst =
      error_response ("Internal server error: " ++ "object has no attribute get") 500 ∧
    (lambda_handler env st event).fst ≠ error_response "Message is required" 400 := by
  have h1 : (lambda_handler env st event).fst =
      error_response ("Internal server error: " ++ "object has no attribute get") 500 := by
    rw [lambda_handler_non_preflight env st event hopt]
    unfold handle_request
    rw [hb]
    simp only [Option.getD_some]
    rw [hp]
    cases v with
    | jobj fields => exact absurd rfl (hv fields)
    | jnull => simp [pyGet]
    | jbool b2 => simp [pyGet]
    | jnum n => simp [pyGet]
    | jstr s2 => simp [pyGet]
    | jarr xs => simp [pyGet]
  refine ⟨h1, ?_⟩
  rw [h1]
  intro h
  have := congrArg HttpResponse.statusCode h
  simp [error_response] at this

/-- C10 witness: a body parsing to a JSON array yields the 500 answer. -/
theorem non_object_body_500_witness :
    (lambda_handler arrayBodyEnv initState
        { httpMethod := some "POST", body := some "[1]" }).fst =
      error_response ("Internal server error: " ++ "object has no attribute get") 500 :=
  (non_object_body_500 arrayBodyEnv initState
    { httpMethod := some "POST", body := some "[1]" } "[1]" (.jarr [.jnum 1])
    (by decide) rfl rfl (fun fields h => by cases h)).1

/-- C5 counterexample: a request whose body is present but not parseable as
JSON is NOT treated as an empty object: the parse exception escapes to the
top-level catch and the caller receives 500, not the 400 validation
response. -/
theorem unparsable_body_counterexample :
    (lambda_handler badBodyEnv initState
        { httpMethod := some "POST", body := some "not json" }).fst =
      error_response ("Internal server error: " ++ "Expecting value") 500 ∧
    (lambda_handler badBodyEnv initState
        { httpMethod := some "POST", body := some "not json" }).fst ≠
      error_response "Message is required" 400 := by
  refine ⟨rfl, ?_⟩
  intro h
  have := congrArg HttpResponse.statusCode h
  simp [error_response, lambda_handler, handle_request, badBodyEnv, sampleEnv] at this

/-- C5 amended: a request whose body is MISSING is treated as the empty
object and receives the 400 validation response; a request whose body is
present but unparsable raises at the parse and receives the 500 internal
error carrying the parser detail. -/
theorem body_default_and_parse_failure (env : Env) (st : SysState)
    (ev1 ev2 : Event) (b e : String)
    (h1m : ev1.httpMethod ≠ some "OPTIONS")
    (h1b : ev1.body = none)
    (hpd : env.parseJson "\x7b\x7d" = .ok (.jobj []))
    (h2m : ev2.httpMethod ≠ some "OPTIONS")
    (h2b : ev2.body = some b)
    (h2p : env.parseJson b = .error e) :
    (lambda_handler env st ev1).fst = error_response "Message is required" 400 ∧
    (lambda_handler env st ev2).fst =
      error_response ("Internal server error: " ++ e) 500 := by
  constructor
  · rw [lambda_handler_non_preflight env st ev1 h1m]
    unfold handle_request
    rw [h1b]
    simp only [Option.getD_none]
    rw [hpd]
    simp only [pyGet_obj]
    simp [JValue.truthy, show ("" : String).isEmpty = true from rfl]
  · rw [lambda_handler_non_preflight env st ev2 h2m]
    unfold handle_request
    rw [h2b]
    simp only [Option.getD_some]
    rw [h2p]

/-- C5-amended witness: both behaviors on concrete requests. -/
theorem body_default_and_parse_failure_witness :
    (lambda_handler sampleEnv initState
        { httpMethod := some "POST", body := none }).fst =
      error_response "Message is required" 400 ∧
    (lambda_handler sampleEnv initState
        { httpMethod := some "POST", body := some "not json" }).fst =
      error_response ("Internal server error: " ++ "Expecting value") 500 :=
  body_default_and_parse_failure sampleEnv initState
    { httpMethod := some "POST", body := none }
    { httpMethod := some "POST", body := some "not json" }
    "not json" "Expecting value"
    (by decide) rfl rfl (by decide) rfl rfl

/-- C2: when the credential fetch fails (nothing cached and the parameter
store raises), or the remote generation call fails for every key, or returns
empty content for every key, the handler still answers 200 and the message
field of the response is exactly the fallback responder answer for the
input; the failure is not surfaced as an error response. -/
theorem generation_failure_degrades (env : Env) (st : SysState) (event : Event)
    (b : String) (fields : List (String × JValue)) (m : String)
    (hopt : event.httpMethod ≠ some "OPTIONS")
    (hb : event.body = some b)
    (hp : env.parseJson b = .ok (.jobj fields))
    (hmsg : fields.lookup "message" = some (.jstr m))
    (hm : m ≠ "")
    (hput : ∀ r, env.putItem r = .ok ())
    (hfail : (st.anthropicClient = none ∧
                ∃ e, env.getParameter (anthropic_param_name env) = .error e) ∨
             (∀ key, ∃ e,
                env.createMessage key (anthropic_request (.jstr m)) = .error e) ∨
             (∀ key,
                env.createMessage key (anthropic_request (.jstr m)) = .ok [])) :
    (lambda_handler env st event).fst.statusCode = 200 ∧
    (lambda_handler env st event).fst.body.field "message" =
      some (.jstr (generate_fallback_response m)) := by
  obtain ⟨ai, ac, ⟨stg, hstg, hgen⟩, heq⟩ :=
    handle_request_success env st event b fields m hb hp hmsg hm hput
  have hfb : (generate_response env stg (.jstr m)).fst =
      .ok (generate_fallback_response m) := by
    apply generate_response_fallback
    rcases hfail with ⟨hnone, he⟩ | h | h
    · exact Or.inl ⟨by rw [hstg, hnone], he⟩
    · exact Or.inr (Or.inl h)
    · exact Or.inr (Or.inr h)
  have hai : ai = generate_fallback_response m := by
    rw [hgen] at hfb
    injection hfb
  rw [lambda_handler_non_preflight env st event hopt, heq]
  subst hai
  exact ⟨rfl, rfl⟩

/-- C2 witness: in the sample environment the generation API always fails
with a network error, yet the answer is 200 with the fallback greeting. -/
theorem generation_failure_degrades_witness :
    (lambda_handler sampleEnv initState
        { httpMethod := some "POST", body := some "M" }).fst.statusCode = 200 ∧
    (lambda_handler sampleEnv initState
        { httpMethod := some "POST", body := some "M" }).fst.body.field
        "message" =
      some (.jstr (generate_fallback_response "hello")) :=
  generation_failure_degrades sampleEnv initState
    { httpMethod := some "POST", body := some "M" } "M"
    [("message", .jstr "hello")] "hello"
    (by decide) rfl rfl rfl (by decide) (fun _ => rfl)
    (Or.inr (Or.inl (fun key => ⟨"network error", rfl⟩)))

/-- A non-empty string is not isEmpty. -/
theorem isEmpty_false_of_ne (c : String) (hc : c ≠ "") : c.isEmpty = false := by
  cases he : c.isEmpty
  · rfl
  · exact absurd ((String.isEmpty_iff c).mp he) hc

/-- C3: with a non-empty message, a supplied non-empty conversationId is
echoed verbatim in the response, while an absent one is replaced by the next
fresh uuid; in both cases the two turns stored by the request carry exactly
that resolved identifier. -/
theorem conversation_id_resolution (env : Env) (st : SysState) (event : Event)
    (b : String) (fields : List (String × JValue)) (m : String)
    (expected : JValue)
    (hopt : event.httpMethod ≠ some "OPTIONS")
    (hb : event.body = some b)
    (hp : env.parseJson b = .ok (.jobj fields))
    (hmsg : fields.lookup "message" = some (.jstr m))
    (hm : m ≠ "")
    (hput : ∀ r, env.putItem r = .ok ())
    (hcid : (∃ c, c ≠ "" ∧ fields.lookup "conversationId" = some (.jstr c) ∧
               expected = .jstr c) ∨
            (fields.lookup "conversationId" = none ∧
               expected = .jstr (env.uuids st.uuidCounter))) :
    (lambda_handler env st event).fst.statusCode = 200 ∧
    (lambda_handler env st event).fst.body.field "conversationId" =
      some expected ∧
    ∃ r1 r2, (lambda_handler env st event).snd.store = st.store ++ [r1, r2] ∧
      r1.conversationId = expected ∧ r2.conversationId = expected := by
  have hres : resolvedCid env st fields = expected := by
    unfold resolvedCid resolve_conversation_id
    rcases hcid with ⟨c, hc, hl, hexp⟩ | ⟨hl, hexp⟩
    · rw [hl]
      simp [JValue.truthy, isEmpty_false_of_ne c hc, hexp]
    · rw [hl]
      simp [JValue.truthy, hexp]
  obtain ⟨ai, ac, _, heq⟩ :=
    handle_request_success env st event b fields m hb hp hmsg hm hput
  rw [lambda_handler_non_preflight env st event hopt, heq]
  refine ⟨rfl, ?_, userRecord env st fields m, asstRecord env st fields ai,
    rfl, ?_, ?_⟩
  · rw [← hres]
    rfl
  · exact hres
  · exact hres

/-- C3 witness: the caller-supplied identifier comes back verbatim and both
stored turns carry it. -/
theorem conversation_id_resolution_witness :
    (lambda_handler sampleEnv initState
        { httpMethod := some "POST", body := some "MC" }).fst.statusCode = 200 ∧
    (lambda_handler sampleEnv initState
        { httpMethod := some "POST", body := some "MC" }).fst.body.field
        "conversationId" = some (.jstr "c-1") ∧
    ∃ r1 r2, (lambda_handler sampleEnv initState
        { httpMethod := some "POST", body := some "MC" }).snd.store =
        initState.store ++ [r1, r2] ∧
      r1.conversationId = .jstr "c-1" ∧ r2.conversationId = .jstr "c-1" :=
  conversation_id_resolution sampleEnv initState
    { httpMethod := some "POST", body := some "MC" } "MC"
    [("message", .jstr "hello"), ("conversationId", .jstr "c-1")] "hello"
    (.jstr "c-1")
    (by decide) rfl rfl rfl (by decide) (fun _ => rfl)
    (Or.inl ⟨"c-1", by decide, rfl, rfl⟩)

/-- C9: on a successful request the two stored turns share their
conversationId; under a monotone clock the assistant turn timestamp, taken
after generation, is lexicographically at least the user turn timestamp; and
the response timestamp field equals the assistant turn timestamp. -/
theorem timestamps_monotone_within_request (env : Env) (st : SysState)
    (event : Event) (b : String) (fields : List (String × JValue)) (m : String)
    (hopt : event.httpMethod ≠ some "OPTIONS")
    (hb : event.body = some b)
    (hp : env.parseJson b = .ok (.jobj fields))
    (hmsg : fields.lookup "message" = some (.jstr m))
    (hm : m ≠ "")
    (hput : ∀ r, env.putItem r = .ok ())
    (hmono : ∀ i j : Nat, i ≤ j → tsString env i ≤ tsString env j) :
    (lambda_handler env st event).fst.statusCode = 200 ∧
    ∃ r1 r2, (lambda_handler env st event).snd.store = st.store ++ [r1, r2] ∧
      r1.conversationId = r2.conversationId ∧
      r1.timestamp ≤ r2.timestamp ∧
      (lambda_handler env st event).fst.body.field "timestamp" =
        some (.jstr r2.timestamp) := by
  obtain ⟨ai, ac, _, heq⟩ :=
    handle_request_success env st event b fields m hb hp hmsg hm hput
  rw [lambda_handler_non_preflight env st event hopt, heq]
  refine ⟨rfl, userRecord env st fields m, asstRecord env st fields ai,
    rfl, rfl, ?_, rfl⟩
  exact hmono st.clockCounter (st.clockCounter + 2) (Nat.le_add_right _ _)

/-- C9 witness: in the sample environment (constant clock, storage
accepting) the request with message hello satisfies the conjunction. -/
theorem timestamps_monotone_within_request_witness :
    (lambda_handler sampleEnv initState
        { httpMethod := some "POST", body := some "M" }).fst.statusCode = 200 ∧
    ∃ r1 r2, (lambda_handler sampleEnv initState
        { httpMethod := some "POST", body := some "M" }).snd.store =
        initState.store ++ [r1, r2] ∧
      r1.conversationId = r2.conversationId ∧
      r1.timestamp ≤ r2.timestamp ∧
      (lambda_handler sampleEnv initState
          { httpMethod := some "POST", body := some "M" }).fst.body.field
          "timestamp" = some (.jstr r2.timestamp) :=
  timestamps_monotone_within_request sampleEnv initState
    { httpMethod := some "POST", body := some "M" } "M"
    [("message", .jstr "hello")] "hello"
    (by decide) rfl rfl rfl (by decide) (fun _ => rfl)
    (fun i j _ => le_refl (tsString sampleEnv i))

/-- A put rejected by storage raises and leaves the table unchanged (the
clock and uuid cursors have already advanced). -/
theorem store_message_err (env : Env) (d : String)
    (herr : ∀ r, env.putItem r = .error d) (st : SysState) (cid : JValue)
    (sender : String) (msg : JValue) (ts : String) :
    store_message env st cid sender msg ts =
      (.error d,
       { store := st.store, anthropicClient := st.anthropicClient,
         uuidCounter := st.uuidCounter + 1,
         clockCounter := st.clockCounter + 1 }) := by
  unfold store_message
  simp [herr]

/-- A user-turn put succeeds when storage accepts user-turn records. -/
theorem store_message_ok_user (env : Env)
    (hok : ∀ r, r.sender = "user" → env.putItem r = .ok ())
    (st : SysState) (cid : JValue) (msg : JValue) (ts : String) :
    store_message env st cid "user" msg ts =
      (.ok (),
       { store := st.store ++
           [{ conversationId := cid, timestamp := ts, sender := "user",
              message := msg, messageId := env.uuids st.uuidCounter,
              ttl := (env.clock st.clockCounter).epochSeconds + 30 * 86400 }],
         anthropicClient := st.anthropicClient,
         uuidCounter := st.uuidCounter + 1,
         clockCounter := st.clockCounter + 1 }) := by
  have h := hok
    { conversationId := cid, timestamp := ts, sender := "user", message := msg,
      messageId := env.uuids st.uuidCounter,
      ttl := (env.clock st.clockCounter).epochSeconds + 30 * 86400 } rfl
  unfold store_message
  simp [h]

/-- An assistant-turn put raises when storage rejects assistant-turn
records. -/
theorem store_message_err_asst (env : Env) (d : String)
    (hfail : ∀ r, r.sender = "assistant" → env.putItem r = .error d)
    (st : SysState) (cid : JValue) (msg : JValue) (ts : String) :
    store_message env st cid "assistant" msg ts =
      (.error d,
       { store := st.store, anthropicClient := st.anthropicClient,
         uuidCounter := st.uuidCounter + 1,
         clockCounter := st.clockCounter + 1 }) := by
  have h := hfail
    { conversationId := cid, timestamp := ts, sender := "assistant", message := msg,
      messageId := env.uuids st.uuidCounter,
      ttl := (env.clock st.clockCounter).epochSeconds + 30 * 86400 } rfl
  unfold store_message
  simp [h]

/-- C6: a storage failure propagates unmodified to the top level and yields a
500 whose body embeds the exception detail. A failing first write leaves the
table unchanged; when only the second (assistant) write fails, the
already-stored user turn remains — no compensating rollback — and no
assistant turn is stored. -/
theorem storage_failure_propagates (env1 env2 : Env) (st : SysState)
    (event : Event) (b : String) (fields : List (String × JValue)) (m : String)
    (d1 d2 : String)
    (hopt : event.httpMethod ≠ some "OPTIONS")
    (hb : event.body = some b)
    (hp1 : env1.parseJson b = .ok (.jobj fields))
    (hp2 : env2.parseJson b = .ok (.jobj fields))
    (hmsg : fields.lookup "message" = some (.jstr m))
    (hm : m ≠ "")
    (hfail1 : ∀ r, env1.putItem r = .error d1)
    (hok2 : ∀ r, r.sender = "user" → env2.putItem r = .ok ())
    (hfail2 : ∀ r, r.sender = "assistant" → env2.putItem r = .error d2) :
    ((lambda_handler env1 st event).fst =
        error_response ("Internal server error: " ++ d1) 500 ∧
      (lambda_handler env1 st event).snd.store = st.store) ∧
    ((lambda_handler env2 st event).fst =
        error_response ("Internal server error: " ++ d2) 500 ∧
      ∃ r1, (lambda_handler env2 st event).snd.store = st.store ++ [r1] ∧
        r1.sender = "user" ∧
        ∀ r, r ∈ (lambda_handler env2 st event).snd.store →
          r.sender = "assistant" → r ∈ st.store) := by
  constructor
  · rw [lambda_handler_non_preflight env1 st event hopt]
    unfold handle_request
    rw [hb]
    simp only [Option.getD_some]
    rw [hp1]
    simp only [pyGet_obj, hmsg, Option.getD_some]
    rw [if_neg (by simp [JValue.truthy, isEmpty_false_of_ne m hm])]
    obtain ⟨hs1, hs2, hs3⟩ := resolve_conversation_id_snd env1 st
      ((List.lookup "conversationId" fields).getD JValue.jnull)
    rw [hs1, hs2, hs3]
    simp only [store_message_err env1 d1 hfail1]
    exact ⟨trivial, trivial⟩
  · rw [lambda_handler_non_preflight env2 st event hopt]
    obtain ⟨ai, ac, hg⟩ := generate_response_str_form env2
      { store := st.store ++ [userRecord env2 st fields m],
        anthropicClient := st.anthropicClient,
        uuidCounter := uuidAfterCid env2 st fields + 1,
        clockCounter := st.clockCounter + 2 } m
    unfold handle_request
    rw [hb]
    simp only [Option.getD_some]
    rw [hp2]
    simp only [pyGet_obj, hmsg, Option.getD_some]
    rw [if_neg (by simp [JValue.truthy, isEmpty_false_of_ne m hm])]
    obtain ⟨hs1, hs2, hs3⟩ := resolve_conversation_id_snd env2 st
      ((List.lookup "conversationId" fields).getD JValue.jnull)
    rw [hs1, hs2, hs3]
    simp only [store_message_ok_user env2 hok2]
    simp only [userRecord, resolvedCid, uuidAfterCid, tsString] at hg ⊢
    simp at hg
    rw [show st.clockCounter + 2 = st.clockCounter + 1 + 1 from rfl] at hg
    rw [hg]
    simp only [store_message_err_asst env2 d2 hfail2]
    refine ⟨trivial, _, rfl, rfl, ?_⟩
    intro r hr hsend
    rcases List.mem_append.mp hr with h | h
    · exact h
    · simp at h
      subst h
      simp at hsend

/-- C6 witness: a storage that rejects everything yields the 500 with the
detail and stores nothing; a storage that rejects only assistant turns
yields the 500 with the detail and leaves exactly the user turn stored. -/
theorem storage_failure_propagates_witness :
    ((lambda_handler downStoreEnv initState
        { httpMethod := some "POST", body := some "M" }).fst =
        error_response ("Internal server error: " ++ "table unavailable") 500 ∧
      (lambda_handler downStoreEnv initState
        { httpMethod := some "POST", body := some "M" }).snd.store =
        initState.store) ∧
    ((lambda_handler asstFailEnv initState
        { httpMethod := some "POST", body := some "M" }).fst =
        error_response ("Internal server error: " ++ "boom") 500 ∧
      ∃ r1, (lambda_handler asstFailEnv initState
          { httpMethod := some "POST", body := some "M" }).snd.store =
          initState.store ++ [r1] ∧
        r1.sender = "user" ∧
        ∀ r, r ∈ (lambda_handler asstFailEnv initState
            { httpMethod := some "POST", body := some "M" }).snd.store →
          r.sender = "assistant" → r ∈ initState.store) :=
  storage_failure_propagates downStoreEnv asstFailEnv initState
    { httpMethod := some "POST", body := some "M" } "M"
    [("message", .jstr "hello")] "hello" "table unavailable" "boom"
    (by decide) rfl rfl rfl rfl (by decide)
    (fun _ => rfl)
    (fun r h => by simp [asstFailEnv, h])
    (fun r h => by simp [asstFailEnv, h])
